import Mathlib

/-!
Verification of the lan-mouse wire protocol: a shallow embedding of
`src/protocol.rs`, `src/request.rs` and the address resolver, with theorems
about the event codec, the blob-exchange request protocol, the resolver and
the send path.

Modelling conventions:
* a byte is a `Nat` (meaningful values are `< 256`); `u32` / `u64` values are
  `Nat`s bounded by `2^32` / `2^64`;
* multi-byte integers are laid out in the byte order of the reference
  platform (little-endian, 64-bit, so a `usize` length serializes to 8
  bytes), matching the source's `to_ne_bytes` / `from_ne_bytes` there;
* an `f64` is represented by its 64-bit bit pattern (a `Nat < 2^64`), so
  bit-pattern equality of floats is plain equality of these `Nat`s;
* a Rust panic is modelled as an error value: `DecodeError.protocolViolation`
  for `protocol violation` panics and `DecodeError.unimplemented` for the
  unimplemented-placeholder panics, so the two failure modes stay
  distinguishable.
-/

namespace LanMouse

/-- Model of `u32::to_ne_bytes` on the reference (little-endian) platform. -/
def u32ToBytes (n : Nat) : List Nat :=
  [n % 256, n / 256 % 256, n / 65536 % 256, n / 16777216 % 256]

/-- Model of `u64::to_ne_bytes` (also `f64::to_ne_bytes` of a bit pattern, and
`usize::to_ne_bytes` on the 64-bit reference platform). -/
def u64ToBytes (n : Nat) : List Nat :=
  [n % 256, n / 256 % 256, n / 65536 % 256, n / 16777216 % 256,
   n / 4294967296 % 256, n / 1099511627776 % 256,
   n / 281474976710656 % 256, n / 72057594037927936 % 256]

/-- Model of `u32::from_ne_bytes` on the reference platform. -/
def u32FromBytes (b0 b1 b2 b3 : Nat) : Nat :=
  b0 + 256 * b1 + 65536 * b2 + 16777216 * b3

/-- Model of `u64::from_ne_bytes` / `f64::from_ne_bytes` (of a bit pattern). -/
def u64FromBytes (b0 b1 b2 b3 b4 b5 b6 b7 : Nat) : Nat :=
  b0 + 256 * b1 + 65536 * b2 + 16777216 * b3 + 4294967296 * b4 +
    1099511627776 * b5 + 281474976710656 * b6 + 72057594037927936 * b7

theorem u32FromBytes_toBytes (n : Nat) (h : n < 2 ^ 32) :
    u32FromBytes (n % 256) (n / 256 % 256) (n / 65536 % 256)
      (n / 16777216 % 256) = n := by
  simp only [u32FromBytes]
  omega

theorem u64FromBytes_toBytes (n : Nat) (h : n < 2 ^ 64) :
    u64FromBytes (n % 256) (n / 256 % 256) (n / 65536 % 256)
      (n / 16777216 % 256) (n / 4294967296 % 256) (n / 1099511627776 % 256)
      (n / 281474976710656 % 256) (n / 72057594037927936 % 256) = n := by
  simp only [u64FromBytes]
  omega

/-- Model of `wl_pointer::ButtonState` (the two states the codec handles). -/
inductive ButtonState where
  | Released
  | Pressed
  deriving DecidableEq, Repr

/-- Model of `wl_pointer::Axis` (the two axes the codec handles). -/
inductive Axis where
  | VerticalScroll
  | HorizontalScroll
  deriving DecidableEq, Repr

/-- Model of `wl_keyboard::KeyState` (the two states the codec handles). -/
inductive KeyState where
  | Released
  | Pressed
  deriving DecidableEq, Repr

/-- Model of `protocol::Event`.  `u32` fields are `Nat`s (valid when `< 2^32`);
`f64` fields carry the 64-bit bit pattern (valid when `< 2^64`). -/
inductive Event where
  | Mouse (t x y : Nat)
  | Button (t b : Nat) (s : ButtonState)
  | Axis (t : Nat) (a : Axis) (v : Nat)
  | Key (t k : Nat) (s : KeyState)
  | KeyModifier (mods_depressed mods_latched mods_locked group : Nat)
  deriving DecidableEq, Repr

/-- Field bounds making an `Event` a value the Rust types can hold. -/
def Event.Valid : Event → Prop
  | .Mouse t x y => t < 2 ^ 32 ∧ x < 2 ^ 64 ∧ y < 2 ^ 64
  | .Button t b _ => t < 2 ^ 32 ∧ b < 2 ^ 32
  | .Axis t _ v => t < 2 ^ 32 ∧ v < 2 ^ 64
  | .Key t k _ => t < 2 ^ 32 ∧ k < 2 ^ 32
  | .KeyModifier d l lk g =>
      d < 2 ^ 32 ∧ l < 2 ^ 32 ∧ lk < 2 ^ 32 ∧ g < 2 ^ 32

instance (e : Event) : Decidable e.Valid := by
  cases e <;> simp only [Event.Valid] <;> infer_instance

/-- Model of `Event::encode` (src/protocol.rs:127-183): a tag byte followed by the
variant's fields, each serialized with `to_ne_bytes`.  The `_ => todo!()`
arms of the source are unreachable here because the modelled enums have
exactly the two states the source handles. -/
def Event.encode : Event → List Nat
  | .Mouse t x y => 0 :: (u32ToBytes t ++ u64ToBytes x ++ u64ToBytes y)
  | .Button t b s =>
      1 :: (u32ToBytes t ++ u32ToBytes b ++
        [match s with | .Released => 0 | .Pressed => 1])
  | .Axis t a v =>
      2 :: (u32ToBytes t ++
        (match a with | .VerticalScroll => 0 | .HorizontalScroll => 1) ::
          u64ToBytes v)
  | .Key t k s =>
      3 :: (u32ToBytes t ++ u32ToBytes k ++
        [match s with | .Released => 0 | .Pressed => 1])
  | .KeyModifier d l lk g =>
      4 :: (u32ToBytes d ++ u32ToBytes l ++ u32ToBytes lk ++ u32ToBytes g)

/-- The two distinguishable panics of `Event::decode`:
`protocolViolation` models `panic!("protocol violation")` and
`unimplemented` models the `todo!()` placeholder. -/
inductive DecodeError where
  | protocolViolation
  | unimplemented
  deriving DecidableEq, Repr

/-- Model of `Event::decode` (src/protocol.rs:185-227).  The source takes a
`[u8; 21]` receive buffer that `receive_event` zero-initializes before the
datagram fills its prefix; reading byte `i` of that buffer is `buf.getD i 0`
on the list of received bytes. -/
def Event.decode (buf : List Nat) : Except DecodeError Event :=
  match buf.getD 0 0 with
  | 0 => .ok (.Mouse
      (u32FromBytes (buf.getD 1 0) (buf.getD 2 0) (buf.getD 3 0) (buf.getD 4 0))
      (u64FromBytes (buf.getD 5 0) (buf.getD 6 0) (buf.getD 7 0) (buf.getD 8 0)
        (buf.getD 9 0) (buf.getD 10 0) (buf.getD 11 0) (buf.getD 12 0))
      (u64FromBytes (buf.getD 13 0) (buf.getD 14 0) (buf.getD 15 0) (buf.getD 16 0)
        (buf.getD 17 0) (buf.getD 18 0) (buf.getD 19 0) (buf.getD 20 0)))
  | 1 =>
      match buf.getD 9 0 with
      | 0 => .ok (.Button
          (u32FromBytes (buf.getD 1 0) (buf.getD 2 0) (buf.getD 3 0) (buf.getD 4 0))
          (u32FromBytes (buf.getD 5 0) (buf.getD 6 0) (buf.getD 7 0) (buf.getD 8 0))
          .Released)
      | 1 => .ok (.Button
          (u32FromBytes (buf.getD 1 0) (buf.getD 2 0) (buf.getD 3 0) (buf.getD 4 0))
          (u32FromBytes (buf.getD 5 0) (buf.getD 6 0) (buf.getD 7 0) (buf.getD 8 0))
          .Pressed)
      | _ => .error .protocolViolation
  | 2 =>
      match buf.getD 5 0 with
      | 0 => .ok (.Axis
          (u32FromBytes (buf.getD 1 0) (buf.getD 2 0) (buf.getD 3 0) (buf.getD 4 0))
          .VerticalScroll
          (u64FromBytes (buf.getD 6 0) (buf.getD 7 0) (buf.getD 8 0) (buf.getD 9 0)
            (buf.getD 10 0) (buf.getD 11 0) (buf.getD 12 0) (buf.getD 13 0)))
      | 1 => .ok (.Axis
          (u32FromBytes (buf.getD 1 0) (buf.getD 2 0) (buf.getD 3 0) (buf.getD 4 0))
          .HorizontalScroll
          (u64FromBytes (buf.getD 6 0) (buf.getD 7 0) (buf.getD 8 0) (buf.getD 9 0)
            (buf.getD 10 0) (buf.getD 11 0) (buf.getD 12 0) (buf.getD 13 0)))
      | _ => .error .unimplemented
  | 3 =>
      match buf.getD 9 0 with
      | 0 => .ok (.Key
          (u32FromBytes (buf.getD 1 0) (buf.getD 2 0) (buf.getD 3 0) (buf.getD 4 0))
          (u32FromBytes (buf.getD 5 0) (buf.getD 6 0) (buf.getD 7 0) (buf.getD 8 0))
          .Released)
      | 1 => .ok (.Key
          (u32FromBytes (buf.getD 1 0) (buf.getD 2 0) (buf.getD 3 0) (buf.getD 4 0))
          (u32FromBytes (buf.getD 5 0) (buf.getD 6 0) (buf.getD 7 0) (buf.getD 8 0))
          .Pressed)
      | _ => .error .unimplemented
  | 4 => .ok (.KeyModifier
      (u32FromBytes (buf.getD 1 0) (buf.getD 2 0) (buf.getD 3 0) (buf.getD 4 0))
      (u32FromBytes (buf.getD 5 0) (buf.getD 6 0) (buf.getD 7 0) (buf.getD 8 0))
      (u32FromBytes (buf.getD 9 0) (buf.getD 10 0) (buf.getD 11 0) (buf.getD 12 0))
      (u32FromBytes (buf.getD 13 0) (buf.getD 14 0) (buf.getD 15 0) (buf.getD 16 0)))
  | _ => .error .protocolViolation

/-- C1: For every valid `Event` value (Mouse, Button with state
Pressed/Released, Axis with kind Vertical/Horizontal, Key with state
Pressed/Released, KeyModifiers), decoding the encoded frame reproduces the
event field-for-field, `f64` fields compared as exact bit patterns:
`decode (encode e) = ok e`.  (`decode` reads the receive buffer, whose bytes
beyond the datagram's length are the zero initialization; for each variant it
only reads offsets `encode` wrote, so the equation holds on `encode`'s output
directly.) -/
theorem decode_encode (e : Event) (h : e.Valid) :
    Event.decode (Event.encode e) = .ok e := by
  cases e with
  | Mouse t x y =>
      obtain ⟨ht, hx, hy⟩ := h
      simp only [Event.encode, Event.decode, u32ToBytes, u64ToBytes,
        List.cons_append, List.nil_append, List.getD_cons_zero,
        List.getD_cons_succ]
      rw [u32FromBytes_toBytes t ht, u64FromBytes_toBytes x hx,
        u64FromBytes_toBytes y hy]
  | Button t b s =>
      obtain ⟨ht, hb⟩ := h
      cases s <;>
        · simp only [Event.encode, Event.decode, u32ToBytes,
            List.cons_append, List.nil_append, List.getD_cons_zero,
            List.getD_cons_succ]
          rw [u32FromBytes_toBytes t ht, u32FromBytes_toBytes b hb]
  | Axis t a v =>
      obtain ⟨ht, hv⟩ := h
      cases a <;>
        · simp only [Event.encode, Event.decode, u32ToBytes, u64ToBytes,
            List.cons_append, List.nil_append, List.getD_cons_zero,
            List.getD_cons_succ]
          rw [u32FromBytes_toBytes t ht, u64FromBytes_toBytes v hv]
  | Key t k s =>
      obtain ⟨ht, hk⟩ := h
      cases s <;>
        · simp only [Event.encode, Event.decode, u32ToBytes,
            List.cons_append, List.nil_append, List.getD_cons_zero,
            List.getD_cons_succ]
          rw [u32FromBytes_toBytes t ht, u32FromBytes_toBytes k hk]
  | KeyModifier d l lk g =>
      obtain ⟨hd, hl, hlk, hg⟩ := h
      simp only [Event.encode, Event.decode, u32ToBytes,
        List.cons_append, List.nil_append, List.getD_cons_zero,
        List.getD_cons_succ]
      rw [u32FromBytes_toBytes d hd, u32FromBytes_toBytes l hl,
        u32FromBytes_toBytes lk hlk, u32FromBytes_toBytes g hg]

/-- Witness for `decode_encode` at a concrete valid event. -/
theorem decode_encode_witness :
    (Event.Mouse 100 5 7).Valid ∧
      Event.decode (Event.encode (Event.Mouse 100 5 7)) =
        .ok (Event.Mouse 100 5 7) :=
  ⟨by decide, decode_encode (Event.Mouse 100 5 7) (by decide)⟩

/-- C2 counterexample: The claim `encode(e).length == 21` for every
variant fails at a concrete Button event: the source pushes only
1 + 4 + 4 + 1 = 10 bytes for a Button. -/
theorem encode_button_length_ne :
    (Event.encode (Event.Button 0 0 ButtonState.Released)).length ≠ 21 := by
  decide

/-- C2 (amended): `encode` produces a variant-dependent buffer of at most
21 bytes — 21 for Mouse, 10 for Button, 14 for Axis, 10 for Key, 17 for
KeyModifiers; the fixed 21-byte wire frame with zero trailing bytes arises
only in the receiver's zero-initialized buffer, not in `encode`'s output. -/
theorem encode_length (e : Event) :
    (Event.encode e).length =
      (match e with
       | .Mouse _ _ _ => 21
       | .Button _ _ _ => 10
       | .Axis _ _ _ => 14
       | .Key _ _ _ => 10
       | .KeyModifier _ _ _ _ => 17) ∧
    (Event.encode e).length ≤ 21 := by
  cases e <;> simp [Event.encode, u32ToBytes, u64ToBytes]

/-- C3: Decoding a 21-byte buffer whose tag byte (byte 0) lies outside
`{0, 1, 2, 3, 4}` fails with the reported `protocolViolation` error — it is
never a silently returned default event. -/
theorem decode_bad_tag (buf : List Nat) (_hlen : buf.length = 21)
    (htag : 4 < buf.getD 0 0) :
    Event.decode buf = .error .protocolViolation := by
  obtain ⟨w, hw⟩ : ∃ w, buf.getD 0 0 = w + 5 := ⟨buf.getD 0 0 - 5, by omega⟩
  unfold Event.decode
  rw [hw]
  rfl

/-- Witness for `decode_bad_tag` on a concrete frame with tag byte 7. -/
theorem decode_bad_tag_witness :
    (7 :: List.replicate 20 0).length = 21 ∧
      Event.decode (7 :: List.replicate 20 0) = .error .protocolViolation :=
  ⟨by decide, decode_bad_tag (7 :: List.replicate 20 0) (by decide) (by decide)⟩

/-- C4: Evaluating `decode` at the failing input of the claim: a Button
frame (tag 1) with state byte 2 at offset 9 does report `protocolViolation`,
and state bytes 0/1 decode to Released/Pressed — but a Key frame (tag 3) with
state byte 2 hits the source's `todo!()` placeholder (`unimplemented`),
not the `protocol violation` panic the claim requires. -/
theorem decode_bad_state :
    Event.decode [1, 0, 0, 0, 0, 0, 0, 0, 0, 2, 0, 0, 0, 0, 0, 0, 0, 0, 0, 0, 0] =
      .error .protocolViolation ∧
    Event.decode [3, 0, 0, 0, 0, 0, 0, 0, 0, 2, 0, 0, 0, 0, 0, 0, 0, 0, 0, 0, 0] =
      .error .unimplemented ∧
    Event.decode [3, 0, 0, 0, 0, 0, 0, 0, 0, 0, 0, 0, 0, 0, 0, 0, 0, 0, 0, 0, 0] =
      .ok (.Key 0 0 .Released) ∧
    Event.decode [3, 0, 0, 0, 0, 0, 0, 0, 0, 1, 0, 0, 0, 0, 0, 0, 0, 0, 0, 0, 0] =
      .ok (.Key 0 0 .Pressed) :=
  ⟨rfl, rfl, rfl, rfl⟩

/-- C5: Evaluating `decode` at the failing input of the claim: an Axis
frame (tag 2) whose axis-kind byte at offset 5 is 2 fails through the
source's `todo!()` placeholder (`unimplemented`), not through the reported
`protocolViolation` the claim (and the spec's error taxonomy) requires;
kind bytes 0/1 decode to Vertical/Horizontal. -/
theorem decode_bad_axis :
    Event.decode [2, 0, 0, 0, 0, 2, 0, 0, 0, 0, 0, 0, 0, 0, 0, 0, 0, 0, 0, 0, 0] =
      .error .unimplemented ∧
    Event.decode [2, 0, 0, 0, 0, 0, 0, 0, 0, 0, 0, 0, 0, 0, 0, 0, 0, 0, 0, 0, 0] =
      .ok (.Axis 0 .VerticalScroll 0) ∧
    Event.decode [2, 0, 0, 0, 0, 1, 0, 0, 0, 0, 0, 0, 0, 0, 0, 0, 0, 0, 0, 0, 0] =
      .ok (.Axis 0 .HorizontalScroll 0) :=
  ⟨rfl, rfl, rfl⟩

/-- Model of an IP address.  The resolver treats addresses as opaque values,
so a `Nat` label stands in for `std::net::IpAddr`. -/
abbrev IpAddr := Nat

/-- Model of `std::net::SocketAddr`: an IP address paired with a port. -/
structure SocketAddr where
  ip : IpAddr
  port : Nat
  deriving DecidableEq, Repr

/-- Model of `config::Client` as the resolver consumes it
(src/protocol.rs:16-45): optional host name, optional literal IP, optional
port. -/
structure Client where
  host_name : Option String
  ip : Option IpAddr
  port : Option Nat
  deriving DecidableEq, Repr

/-- Fatal startup failures of `resolve`: a failed `lookup_ip` (the
`expect`), an empty response (the `couldn't resolve host` panic), or an
entry with neither ip nor host name. -/
inductive ResolveError where
  | lookupFailed (host : String)
  | emptyResolution (host : String)
  | missingIpAndHost
  deriving DecidableEq, Repr

/-- Model of `Resolve::resolve` for `Option<config::Client>`
(src/protocol.rs:16-45).  The system DNS resolver is the environment
parameter `dns`: `dns host` is the address list of a successful
`lookup_ip`, `none` a failed one.  The source's panics become
`ResolveError`s. -/
def resolve (c : Option Client) (dns : String → Option (List IpAddr)) :
    Except ResolveError (Option SocketAddr) :=
  match c with
  | none => .ok none
  | some client =>
    let port : Nat := match client.port with | some p => p | none => 42069
    match client.ip with
    | some ip => .ok (some ⟨ip, port⟩)
    | none =>
      match client.host_name with
      | some host =>
        match dns host with
        | none => .error (.lookupFailed host)
        | some ips =>
          match ips.head? with
          | some ip => .ok (some ⟨ip, port⟩)
          | none => .error (.emptyResolution host)
      | none => .error .missingIpAndHost

/-- C6: `resolve` yields nothing for an absent entry; an entry with a
literal IP uses that IP directly, consulting no DNS resolver (the result is
the same for every `dns`); and an entry without a port gets port 42069. -/
theorem resolve_spec :
    (∀ dns, resolve none dns = .ok none) ∧
    (∀ dns c ip, c.ip = some ip →
        resolve (some c) dns = .ok (some ⟨ip, c.port.getD 42069⟩)) ∧
    (∀ dns c ip, c.ip = some ip → c.port = none →
        resolve (some c) dns = .ok (some ⟨ip, 42069⟩)) := by
  refine ⟨fun dns => rfl, ?_, ?_⟩
  · intro dns c ip hip
    cases hp : c.port <;> simp [resolve, hip, hp]
  · intro dns c ip hip hp
    simp [resolve, hip, hp]

/-- Witness for `resolve_spec`: a concrete entry with literal IP 7 and no
port resolves to `7:42069` without any DNS answer available. -/
theorem resolve_spec_witness :
    resolve (some ⟨none, some 7, none⟩) (fun _ => none) =
      .ok (some ⟨7, 42069⟩) :=
  resolve_spec.2.2 (fun _ => none) ⟨none, some 7, none⟩ 7 rfl rfl

/-- Model of `request::Request` (src/request.rs:11-15). -/
inductive Request where
  | KeyMap
  | Connect
  deriving DecidableEq, Repr

/-- Model of `Request as u32`: Rust assigns the discriminants 0 and 1 in
declaration order. -/
def Request.ordinal : Request → Nat
  | .KeyMap => 0
  | .Connect => 1

/-- Model of `TryFrom<[u8; 4]> for Request` (src/request.rs:17-28): read the
4 bytes as a native-endian (little-endian platform) `u32` and compare it
with the discriminants. -/
def Request.tryFrom (b0 b1 b2 b3 : Nat) : Except String Request :=
  let val := u32FromBytes b0 b1 b2 b3
  if val = Request.ordinal .KeyMap then .ok .KeyMap
  else if val = Request.ordinal .Connect then .ok .Connect
  else .error "Bad Request"

/-- Bytes `request_data` writes for a request (src/request.rs:87-88):
`(req as u32).to_ne_bytes()`. -/
def Request.wireBytes (r : Request) : List Nat := u32ToBytes r.ordinal

/-- Result of `Server::handle_request` on one accepted connection: the bytes
written back before the stream closes, an abandoned connection after a
logged bad request, or one of the two panics (`todo!()` on Connect, a failed
4-byte `read_exact`). -/
inductive HandleResult where
  | reply (bytes : List Nat)
  | badRequest (msg : String)
  | unimplementedPanic
  | readPanic
  deriving DecidableEq, Repr

/-- Model of `Server::handle_request` (src/request.rs:36-57).  `store` is
the shared blob store, `stream` the bytes the client sent.  Note the
absent-blob arm writes `0u32.to_ne_bytes()` — 4 bytes — while the
present-blob arm writes the 8-byte `usize` length followed by the blob. -/
def handle_request (store : Request → Option (List Nat))
    (stream : List Nat) : HandleResult :=
  if stream.length < 4 then .readPanic
  else
    match Request.tryFrom (stream.getD 0 0) (stream.getD 1 0)
        (stream.getD 2 0) (stream.getD 3 0) with
    | .ok .KeyMap =>
        match store .KeyMap with
        | none => .reply (u32ToBytes 0)
        | some data => .reply (u64ToBytes data.length ++ data)
    | .ok .Connect => .unimplementedPanic
    | .error msg => .badRequest msg

/-- Model of the accept loop of `Server::listen` (src/request.rs:64-71): it
runs `handle_request` inline on each accepted connection in turn; a panic in
the handler unwinds the listening thread, so the connections after it are
never handled. -/
def listenLoop (store : Request → Option (List Nat)) :
    List (List Nat) → List HandleResult
  | [] => []
  | stream :: rest =>
      match handle_request store stream with
      | .unimplementedPanic => [.unimplementedPanic]
      | .readPanic => [.readPanic]
      | r => r :: listenLoop store rest

/-- Result of the reply-reading half of `request_data`: the parsed payload
(or `none` for a zero length), or the `unwrap` panic of a `read_exact` that
hits the closed stream early. -/
inductive ClientReadResult where
  | ok (data : Option (List Nat))
  | readFailed
  deriving DecidableEq, Repr

/-- Model of the reply-reading half of `request_data`
(src/request.rs:92-105): read 8 bytes as the native-width length, return
`none` when it is zero, otherwise read exactly that many payload bytes.
`reply` is the full byte stream the server sent before closing. -/
def request_data_read (reply : List Nat) : ClientReadResult :=
  if reply.length < 8 then .readFailed
  else
    let len := u64FromBytes (reply.getD 0 0) (reply.getD 1 0)
      (reply.getD 2 0) (reply.getD 3 0) (reply.getD 4 0) (reply.getD 5 0)
      (reply.getD 6 0) (reply.getD 7 0)
    if len = 0 then .ok none
    else if reply.length < 8 + len then .readFailed
    else .ok (some ((reply.drop 8).take len))

/-- C7: Evaluating the blob exchange at the claim's input: with no KeyMap
blob registered the server answers a KeyMap request with
`0u32.to_ne_bytes()` — a 4-byte zero reply, not the 8-byte zero length the
claim (and the present-blob arm, which writes an 8-byte `usize` length)
prescribe.  The client half does return `none` on a true 8-byte zero
length, but its 8-byte `read_exact` of the actual 4-byte reply dies at the
closed stream. -/
theorem keymap_absent_reply :
    handle_request (fun _ => none) (Request.wireBytes .KeyMap) =
      .reply (u32ToBytes 0) ∧
    (u32ToBytes 0).length = 4 ∧
    request_data_read (u32ToBytes 0) = .readFailed ∧
    request_data_read (u64ToBytes 0) = .ok none :=
  ⟨rfl, rfl, rfl, rfl⟩

/-- C8: The request tag crosses the wire as a 4-byte little-endian `u32`
ordinal, 0 for KeyMap and 1 for Connect: the client writes exactly those
byte sequences, and the server's parser maps them back to the same tag. -/
theorem request_tag_wire :
    Request.wireBytes .KeyMap = [0, 0, 0, 0] ∧
    Request.wireBytes .Connect = [1, 0, 0, 0] ∧
    (∀ r : Request,
      Request.tryFrom (r.wireBytes.getD 0 0) (r.wireBytes.getD 1 0)
        (r.wireBytes.getD 2 0) (r.wireBytes.getD 3 0) = .ok r) := by
  refine ⟨rfl, rfl, ?_⟩
  intro r
  cases r <;> rfl

/-- Model of `protocol::ClientAddrs` (src/protocol.rs:47-52): the resolved
peer of each direction; only `right` is read by the send path. -/
structure ClientAddrs where
  _left : Option SocketAddr
  right : Option SocketAddr
  _top : Option SocketAddr
  _bottom : Option SocketAddr
  deriving DecidableEq, Repr

/-- Model of the `protocol::Connection` state `send_event` reads: the bound
port and the resolved per-direction peers. -/
structure Connection where
  port : Nat
  client : ClientAddrs
  deriving DecidableEq, Repr

/-- One datagram on the wire: destination address and payload bytes. -/
structure Datagram where
  dest : SocketAddr
  payload : List Nat
  deriving DecidableEq, Repr

/-- Model of `Connection::send_event` (src/protocol.rs:108-114): returns the
unchanged connection (the method takes `&self`) together with the datagrams
it transmits — one `encode`d frame to the right peer when one is
configured, nothing otherwise. -/
def send_event (conn : Connection) (e : Event) :
    Connection × List Datagram :=
  match conn.client.right with
  | none => (conn, [])
  | some addr => (conn, [⟨addr, e.encode⟩])

/-- C9: `send_event` never changes the connection state; with no right peer
configured it transmits nothing, and with a right peer configured it
transmits exactly one datagram — the encoded event — to that peer's
address. -/
theorem send_event_spec (conn : Connection) (e : Event) :
    (send_event conn e).1 = conn ∧
    (conn.client.right = none → (send_event conn e).2 = []) ∧
    (∀ addr, conn.client.right = some addr →
        (send_event conn e).2 = [⟨addr, e.encode⟩]) := by
  obtain ⟨p, l, r, tp, b⟩ := conn
  cases r <;> simp [send_event]

/-- Witness for `send_event_spec`: with right peer `1:42069` configured,
sending a concrete event transmits exactly one datagram to it. -/
theorem send_event_spec_witness :
    (send_event ⟨42069, ⟨none, some ⟨1, 42069⟩, none, none⟩⟩
        (Event.KeyModifier 1 2 3 4)).2 =
      [⟨⟨1, 42069⟩, Event.encode (Event.KeyModifier 1 2 3 4)⟩] :=
  (send_event_spec ⟨42069, ⟨none, some ⟨1, 42069⟩, none, none⟩⟩
    (Event.KeyModifier 1 2 3 4)).2.2 ⟨1, 42069⟩ rfl

/-- C10: A well-formed Connect request (ordinal 1, bytes `[1,0,0,0]`)
drives `handle_request` into the `todo!()` placeholder panic instead of a
reply or a reported error, and since the accept loop runs the handler
inline, the listening loop ends there: the connections queued after it are
never handled, whatever they are. -/
theorem connect_request_panics (store : Request → Option (List Nat))
    (rest : List (List Nat)) :
    handle_request store (Request.wireBytes .Connect) =
      .unimplementedPanic ∧
    listenLoop store (Request.wireBytes .Connect :: rest) =
      [.unimplementedPanic] :=
  ⟨rfl, rfl⟩

example : Event.decode (Event.encode (.Mouse 100 5 7)) = .ok (.Mouse 100 5 7) := rfl

example : Event.decode (Event.encode (.Button 7 272 .Pressed)) =
    .ok (.Button 7 272 .Pressed) := rfl

example : Event.decode (Event.encode (.Axis 3 .HorizontalScroll 9)) =
    .ok (.Axis 3 .HorizontalScroll 9) := rfl

example : Event.decode (Event.encode (.Key 3 30 .Released)) =
    .ok (.Key 3 30 .Released) := rfl

example : Event.decode (Event.encode (.KeyModifier 1 2 3 4)) =
    .ok (.KeyModifier 1 2 3 4) := rfl

end LanMouse
